import Mathlib

/-!
Verification of the `mail-chars` character-classification crate.

Characters are modelled by their numeric codepoint (`Nat`); Rust `char`
comparisons and `ch as u32` casts are comparisons on that codepoint.
The public API of `src/lib.rs` is embedded directly; the generated
`lookup` module (bit constants and the 128-entry `US_ASCII_LOOKUP`
table) is reconstructed from the specification of the RFC grammars.
-/

/-- Modelled from the spec: the crate's `lookup` module is generated code not
present in the sources; the spec says each `Charset` variant is assigned a
distinct power-of-two bit value (1, 2, 4, 8, ...) fitting in one byte.
We assign the bits in declaration order. Bit for `QTextWs`. -/
def QC : Nat := 1

/-- Modelled from the spec: bit for `CTextWs`. -/
def CT : Nat := 2

/-- Modelled from the spec: bit for `DTextWs`. -/
def DT : Nat := 4

/-- Modelled from the spec: bit for `AText`. -/
def AT : Nat := 8

/-- Modelled from the spec: bit for `RestrictedToken`. -/
def RT : Nat := 16

/-- Modelled from the spec: bit for `Token` (rfc2045). -/
def TO : Nat := 32

/-- Modelled from the spec: bit for `ObsNoWsCtl`. -/
def NC : Nat := 64

/-- Modelled from the spec: bit for `Rfc7230Token`. -/
def HT : Nat := 128

/-- Whitespace merged into the `*Ws` sets: space and horizontal tab. -/
def wsCode (i : Nat) : Bool := i == 32 || i == 9

/-- ASCII letters. -/
def alphaCode (i : Nat) : Bool := (65 ≤ i && i ≤ 90) || (97 ≤ i && i ≤ 122)

/-- ASCII digits. -/
def digitCode (i : Nat) : Bool := 48 ≤ i && i ≤ 57

/-- Modelled from the spec: rfc5322 `qtext` (without the obsolete grammar):
%d33 / %d35-91 / %d93-126 — printable US-ASCII except `"` and `\`. -/
def qtextCode (i : Nat) : Bool :=
  i == 33 || (35 ≤ i && i ≤ 91) || (93 ≤ i && i ≤ 126)

/-- Modelled from the spec: rfc5322 `ctext` (without the obsolete grammar):
%d33-39 / %d42-91 / %d93-126 — printable US-ASCII except parentheses and `\`. -/
def ctextCode (i : Nat) : Bool :=
  (33 ≤ i && i ≤ 39) || (42 ≤ i && i ≤ 91) || (93 ≤ i && i ≤ 126)

/-- Modelled from the spec: rfc5322 `dtext`:
%d33-90 / %d94-126 — printable US-ASCII except `[`, `\` and `]`. -/
def dtextCode (i : Nat) : Bool :=
  (33 ≤ i && i ≤ 90) || (94 ≤ i && i ≤ 126)

/-- Modelled from the spec: rfc5322 `atext`:
ALPHA / DIGIT / the listed specials. -/
def atextCode (i : Nat) : Bool :=
  alphaCode i || digitCode i ||
    [33, 35, 36, 37, 38, 39, 42, 43, 45, 47, 61, 63, 94, 95, 96, 123, 124, 125, 126].contains i

/-- Modelled from the spec: rfc2045 `token` characters: any US-ASCII CHAR
except SPACE, CTLs and the tspecials. -/
def token2045Code (i : Nat) : Bool :=
  33 ≤ i && i ≤ 126 &&
    !([40, 41, 60, 62, 64, 44, 59, 58, 92, 34, 47, 91, 93, 63, 61].contains i)

/-- Modelled from the spec: rfc6838 restricted-name characters:
ALPHA / DIGIT / `!#$&-^_` plus `.` and `+`. -/
def restrictedTokenCode (i : Nat) : Bool :=
  alphaCode i || digitCode i || [33, 35, 36, 38, 43, 45, 46, 94, 95].contains i

/-- Modelled from the spec: rfc5322 `obs-NO-WS-CTL`:
%d1-8 / %d11 / %d12 / %d14-31 / %d127. -/
def obsNoWsCtlCode (i : Nat) : Bool :=
  (1 ≤ i && i ≤ 8) || i == 11 || i == 12 || (14 ≤ i && i ≤ 31) || i == 127

/-- Modelled from the spec: rfc7230 `tchar`:
ALPHA / DIGIT / the listed specials. -/
def tchar7230Code (i : Nat) : Bool :=
  alphaCode i || digitCode i ||
    [33, 35, 36, 37, 38, 39, 42, 43, 45, 46, 94, 95, 96, 124, 126].contains i

/-- Modelled from the spec: the per-codepoint membership bitmask combining
the eight set bits (the bits are disjoint powers of two, so addition is
bitwise or here). -/
def charMask (i : Nat) : Nat :=
  (if qtextCode i || wsCode i then QC else 0) +
  (if ctextCode i || wsCode i then CT else 0) +
  (if dtextCode i || wsCode i then DT else 0) +
  (if atextCode i then AT else 0) +
  (if restrictedTokenCode i then RT else 0) +
  (if token2045Code i then TO else 0) +
  (if obsNoWsCtlCode i then NC else 0) +
  (if tchar7230Code i then HT else 0)

/-- Modelled from the spec: the fixed 128-entry classification table,
index = ASCII codepoint, entry = membership bitmask. -/
def US_ASCII_LOOKUP : List Nat := (List.range 128).map charMask

/-- The `Charset` enum of `src/lib.rs`. -/
inductive Charset
  | QTextWs
  | CTextWs
  | DTextWs
  | AText
  | RestrictedToken
  | Token
  | ObsNoWsCtl
  | Rfc7230Token
deriving DecidableEq, Fintype, Repr

/-- The `repr(u8)` discriminant of each variant (`*self as u8` in Rust):
each variant is declared equal to its bit constant from the lookup module. -/
def Charset.toU8 : Charset → Nat
  | .QTextWs => QC
  | .CTextWs => CT
  | .DTextWs => DT
  | .AText => AT
  | .RestrictedToken => RT
  | .Token => TO
  | .ObsNoWsCtl => NC
  | .Rfc7230Token => HT

/-- `Charset::contains_lookup`: table probe for codepoints below 0x80,
`out_of_table_value` otherwise. -/
def Charset.contains_lookup (s : Charset) (ch : Nat) (out_of_table_value : Bool) : Bool :=
  if ch < 0x80 then
    Nat.land (US_ASCII_LOOKUP.getD ch 0) s.toU8 != 0
  else
    out_of_table_value

/-- `Charset::contains`: strict membership test. -/
def Charset.contains (s : Charset) (ch : Nat) : Bool :=
  s.contains_lookup ch false

/-- `Charset::contains_or_non_ascii`: ASCII-extended membership test. -/
def Charset.contains_or_non_ascii (s : Charset) (ch : Nat) : Bool :=
  s.contains_lookup ch true

/-- `LookupResult`: a copied bitmask byte, or `none` for non-ASCII input. -/
structure LookupResult where
  val : Option Nat
deriving DecidableEq, Repr

/-- `Charset::lookup`: classify a character once. -/
def Charset.lookup (ch : Nat) : LookupResult :=
  if ch < 0x80 then
    ⟨some (US_ASCII_LOOKUP.getD ch 0)⟩
  else
    ⟨none⟩

/-- `LookupResult::is_ascii`. -/
def LookupResult.is_ascii (r : LookupResult) : Bool :=
  r.val.isSome

/-- `LookupResult::lookup_contains`: bit test on the stored mask,
`default` when the mask is absent. -/
def LookupResult.lookup_contains (r : LookupResult) (charset : Charset) (default : Bool) : Bool :=
  (r.val.map (fun res => Nat.land res charset.toU8 != 0)).getD default

/-- `CharMatchExt::is` for `LookupResult`. -/
def LookupResult.is (r : LookupResult) (charset : Charset) : Bool :=
  r.lookup_contains charset false

/-- `CharMatchExt::is_inkl_non_ascii` for `LookupResult`. -/
def LookupResult.is_inkl_non_ascii (r : LookupResult) (charset : Charset) : Bool :=
  r.lookup_contains charset true

/-- `CharMatchExt::is` for `char` (codepoint-modelled). -/
def char.is (ch : Nat) (charset : Charset) : Bool :=
  charset.contains ch

/-- `CharMatchExt::is_inkl_non_ascii` for `char`. -/
def char.is_inkl_non_ascii (ch : Nat) (charset : Charset) : Bool :=
  charset.contains_or_non_ascii ch

/-- `rfc5322::QTextWs` re-export. -/
def rfc5322.QTextWs : Charset := Charset.QTextWs

/-- `rfc5322::CTextWs` re-export. -/
def rfc5322.CTextWs : Charset := Charset.CTextWs

/-- `rfc5322::DTextWs` re-export. -/
def rfc5322.DTextWs : Charset := Charset.DTextWs

/-- `rfc5322::AText` re-export. -/
def rfc5322.AText : Charset := Charset.AText

/-- `rfc5322::ObsNoWsCtl` re-export. -/
def rfc5322.ObsNoWsCtl : Charset := Charset.ObsNoWsCtl

/-- `rfc2045::Token` re-export. -/
def rfc2045.Token : Charset := Charset.Token

/-- `rfc6838::RestrictedToken` re-export. -/
def rfc6838.RestrictedToken : Charset := Charset.RestrictedToken

/-- `rfc7230::QDText` re-export (alias of `Charset::QTextWs`). -/
def rfc7230.QDText : Charset := Charset.QTextWs

/-- `rfc7230::Token` re-export (alias of `Charset::Rfc7230Token`). -/
def rfc7230.Token : Charset := Charset.Rfc7230Token

/-- `is_ws`: space or horizontal tab. -/
def is_ws (ch : Nat) : Bool :=
  ch == 32 || ch == 9

/-- `is_vchar`: strictly above space, at most `~`. -/
def is_vchar (ch : Nat) : Bool :=
  32 < ch && ch ≤ 126

/-- C1: for every codepoint below 128 and every `Charset` the direct test
and the batch path agree: `contains` equals `lookup(..).is` and
`contains_or_non_ascii` equals `lookup(..).is_inkl_non_ascii`. -/
theorem direct_batch_agree_ascii (c : Nat) (S : Charset) (h : c < 128) :
    S.contains c = (Charset.lookup c).is S ∧
    S.contains_or_non_ascii c = (Charset.lookup c).is_inkl_non_ascii S := by
  unfold Charset.contains Charset.contains_or_non_ascii Charset.contains_lookup
    Charset.lookup LookupResult.is LookupResult.is_inkl_non_ascii LookupResult.lookup_contains
  simp [h]

/-- Witness for C1 at codepoint 60 and set `QTextWs`. -/
theorem direct_batch_agree_ascii_witness :
    Charset.QTextWs.contains 60 = (Charset.lookup 60).is Charset.QTextWs ∧
    Charset.QTextWs.contains_or_non_ascii 60
      = (Charset.lookup 60).is_inkl_non_ascii Charset.QTextWs :=
  direct_batch_agree_ascii 60 Charset.QTextWs (by decide)

/-- C2: for every codepoint at or above 128 and every `Charset` the strict
tests return false and the ASCII-extended tests return true, uniformly
across all eight sets. -/
theorem out_of_table_default (c : Nat) (S : Charset) (h : 128 ≤ c) :
    S.contains c = false ∧ S.contains_or_non_ascii c = true ∧
    (Charset.lookup c).is S = false ∧
    (Charset.lookup c).is_inkl_non_ascii S = true := by
  unfold Charset.contains Charset.contains_or_non_ascii Charset.contains_lookup
    Charset.lookup LookupResult.is LookupResult.is_inkl_non_ascii LookupResult.lookup_contains
  simp [Nat.not_lt.mpr h]

/-- Witness for C2 at codepoint 8595 (the arrow character) and `Rfc7230Token`. -/
theorem out_of_table_default_witness :
    Charset.Rfc7230Token.contains 8595 = false ∧
    Charset.Rfc7230Token.contains_or_non_ascii 8595 = true ∧
    (Charset.lookup 8595).is Charset.Rfc7230Token = false ∧
    (Charset.lookup 8595).is_inkl_non_ascii Charset.Rfc7230Token = true :=
  out_of_table_default 8595 Charset.Rfc7230Token (by decide)

/-- C3: `lookup(c).is_ascii` holds exactly when the codepoint of `c` is
strictly below 128. -/
theorem lookup_is_ascii_iff_lt_128 (c : Nat) :
    (Charset.lookup c).is_ascii = decide (c < 128) := by
  unfold Charset.lookup LookupResult.is_ascii
  by_cases h : c < 128 <;> simp [h]

/-- C4: `is_ws` is true exactly for space (32) and horizontal tab (9),
hence false for every other character such as newline and carriage return. -/
theorem is_ws_iff_space_or_tab (c : Nat) :
    is_ws c = true ↔ (c = 32 ∨ c = 9) := by
  unfold is_ws
  simp

/-- C5: `is_vchar` is true exactly for codepoints strictly above space (32)
and at most tilde (126): exclusive low boundary, inclusive high boundary. -/
theorem is_vchar_iff_bounds (c : Nat) :
    is_vchar c = true ↔ (32 < c ∧ c ≤ 126) := by
  unfold is_vchar
  simp

/-- C6: every `Charset` variant has as discriminant a single power-of-two
bit fitting in one byte, and distinct variants have distinct values. -/
theorem charset_bits_unique :
    (∀ S : Charset, S.toU8 ∈ [1, 2, 4, 8, 16, 32, 64, 128]) ∧
    (∀ S T : Charset, S = T ∨ S.toU8 ≠ T.toU8) ∧
    (∀ S : Charset, S.toU8 < 256) := by
  decide

/-- C7: the table records the documented overlaps: `<` (60) is in both
`QTextWs` and `CTextWs` but not in `AText`; `d` (100) is in both `AText`
and `Token` — observed through both `contains` and `lookup(..).is`. -/
theorem table_overlap_examples :
    Charset.QTextWs.contains 60 = true ∧
    Charset.CTextWs.contains 60 = true ∧
    Charset.AText.contains 60 = false ∧
    (Charset.lookup 60).is Charset.QTextWs = true ∧
    (Charset.lookup 60).is Charset.CTextWs = true ∧
    (Charset.lookup 60).is Charset.AText = false ∧
    Charset.AText.contains 100 = true ∧
    Charset.Token.contains 100 = true ∧
    (Charset.lookup 100).is Charset.AText = true ∧
    (Charset.lookup 100).is Charset.Token = true := by
  decide

/-- C8: the RFC-grouped re-exports are the same constants, not new sets:
`rfc2045.Token` is `Charset.Token` and `rfc7230.QDText` is
`Charset.QTextWs`. -/
theorem rfc_alias_identity :
    rfc2045.Token = Charset.Token ∧ rfc7230.QDText = Charset.QTextWs :=
  ⟨rfl, rfl⟩

/-- C9: every operation is a deterministic pure function of its arguments:
equal inputs give equal outputs, for the direct tests, the lookup, all
`LookupResult` tests and both standalone predicates. -/
theorem ops_deterministic (c d : Nat) (S T : Charset) (hc : c = d) (hS : S = T) :
    Charset.contains S c = Charset.contains T d ∧
    Charset.contains_or_non_ascii S c = Charset.contains_or_non_ascii T d ∧
    Charset.lookup c = Charset.lookup d ∧
    (Charset.lookup c).is S = (Charset.lookup d).is T ∧
    (Charset.lookup c).is_inkl_non_ascii S = (Charset.lookup d).is_inkl_non_ascii T ∧
    (Charset.lookup c).is_ascii = (Charset.lookup d).is_ascii ∧
    is_ws c = is_ws d ∧
    is_vchar c = is_vchar d := by
  subst hc; subst hS
  exact ⟨rfl, rfl, rfl, rfl, rfl, rfl, rfl, rfl⟩

/-- Witness for C9 at codepoint 100 and set `Token`. -/
theorem ops_deterministic_witness :
    Charset.contains Charset.Token 100 = Charset.contains Charset.Token 100 ∧
    Charset.contains_or_non_ascii Charset.Token 100
      = Charset.contains_or_non_ascii Charset.Token 100 ∧
    Charset.lookup 100 = Charset.lookup 100 ∧
    (Charset.lookup 100).is Charset.Token = (Charset.lookup 100).is Charset.Token ∧
    (Charset.lookup 100).is_inkl_non_ascii Charset.Token
      = (Charset.lookup 100).is_inkl_non_ascii Charset.Token ∧
    (Charset.lookup 100).is_ascii = (Charset.lookup 100).is_ascii ∧
    is_ws 100 = is_ws 100 ∧
    is_vchar 100 = is_vchar 100 :=
  ops_deterministic 100 100 Charset.Token Charset.Token rfl rfl

/-- C10: direct/batch agreement holds for every codepoint of the input
type, ASCII or not, for both the strict and ASCII-extended variants, and
every call is total by construction. -/
theorem direct_batch_agree_all (c : Nat) (S : Charset) :
    char.is c S = (Charset.lookup c).is S ∧
    char.is_inkl_non_ascii c S = (Charset.lookup c).is_inkl_non_ascii S ∧
    S.contains c = (Charset.lookup c).is S ∧
    S.contains_or_non_ascii c = (Charset.lookup c).is_inkl_non_ascii S := by
  unfold char.is char.is_inkl_non_ascii Charset.contains Charset.contains_or_non_ascii
    Charset.contains_lookup Charset.lookup LookupResult.is LookupResult.is_inkl_non_ascii
    LookupResult.lookup_contains
  by_cases h : c < 128 <;> simp [h]
